import Mathlib

/-!
# pg_chardetect: charset detection and conversion to UTF-8

A shallow embedding of `pg_chardetect.c`: `detect_ICU`, `convert_to_unicode`,
`convert_to_utf8`, and the two SQL entry points `convert_to_UTF8` and
`char_set_detect`.

The ICU library (charset detector and converters) and the flagging callbacks of
`flagcb.h` are not part of the source file.  Every call into them is a field of
the record `ICU`; all theorems hold for every value of that record.

Conventions of the embedding
* a byte and a UTF-16 code unit are natural numbers;
* a `text` value is the list of its payload bytes (`VARSIZE_ANY_EXHDR` is its
  length), a NULL pointer is `none`;
* a C string is the list of the bytes in front of its terminating NUL;
* `UErrorCode` is an integer: zero is `U_ZERO_ERROR`, negative values are
  warnings, positive values are failures;
* the confidence of an ICU charset match is a number from 0 to 100, as the ICU
  interface documents it; the source stores it in an `int32_t` unchanged;
* `ereport` below `ERROR` only logs and is left out; the arguments of a
  `DEBUG1` report are not evaluated (the default log level);
* calls into PostgreSQL (`palloc0`, `text_to_cstring`, `cstring_to_text`,
  `heap_form_tuple`) return; an `ERROR` raised inside them, such as an
  allocation request above the allocator's limit, is outside the embedding;
* signed 32-bit arithmetic wraps;
* every function also returns the ICU calls it made, in order.
-/

namespace PgChardetect

/-! ## Machine integers, C strings and text values -/

/-- The value of an integer after conversion to `int32_t` (two's complement). -/
def toInt32 (n : Int) : Int :=
  (n + 2147483648) % 4294967296 - 2147483648

/-- Payload bytes of a PostgreSQL `text` value. -/
abbrev text := List Nat

/-- Bytes of a C string, the terminating NUL excluded. -/
abbrev CString := List Nat

/-- The C string that starts at the first element of a memory area: everything
in front of the first zero. -/
def c_str (mem : List Nat) : CString :=
  mem.takeWhile (fun x => x != 0)

/-- A string literal of the source as a C string. -/
def cstr (s : String) : CString :=
  c_str (s.toList.map Char.toNat)

/-- `VARSIZE_ANY_EXHDR(t)`: number of payload bytes. -/
def VARSIZE_ANY_EXHDR (t : text) : Nat :=
  t.length

/-- `text_to_cstring(t)`: a NUL-terminated copy of the payload; as a C string it
ends at the first zero byte of the payload. -/
def text_to_cstring (t : text) : CString :=
  c_str t

/-- `cstring_to_text(s)`: a text value holding the `strlen(s)` bytes of `s`. -/
def cstring_to_text (s : List Nat) : text :=
  c_str s

/-- `strlen`. -/
def strlen (s : CString) : Nat :=
  s.length

/-- `strcmp`: the difference of the first pair of bytes that differ, a missing
byte counting as the terminating NUL. -/
def strcmp : CString → CString → Int
  | [], [] => 0
  | [], b :: _ => 0 - (b : Int)
  | a :: _, [] => (a : Int)
  | a :: as, b :: bs => if a = b then strcmp as bs else (a : Int) - (b : Int)

/-! ## ICU status codes -/

/-- ICU `UErrorCode`. -/
abbrev UErrorCode := Int

/-- ICU `U_ZERO_ERROR`. -/
def U_ZERO_ERROR : UErrorCode := 0

/-- ICU `U_MEMORY_ALLOCATION_ERROR`. -/
def U_MEMORY_ALLOCATION_ERROR : UErrorCode := 7

/-- ICU macro `U_SUCCESS(x)`: `x <= U_ZERO_ERROR`. -/
def U_SUCCESS (x : UErrorCode) : Bool :=
  decide (x ≤ U_ZERO_ERROR)

/-- ICU macro `U_FAILURE(x)`: `x > U_ZERO_ERROR`. -/
def U_FAILURE (x : UErrorCode) : Bool :=
  decide (x > U_ZERO_ERROR)

/-! ## The ICU interface used by the source -/

/-- A `UCharsetMatch` as seen through `ucsdet_getName`, `ucsdet_getLanguage`
and `ucsdet_getConfidence`. The source calls the three getters only on a
non-NULL match with a non-failure status, where they return the fields of the
match and leave the status alone. The value of `ucsdet_getConfidence` is, as ICU
documents it, a number from 0 to 100. -/
structure UCharsetMatch where
  name : CString
  language : CString
  confidence : Fin 101
deriving DecidableEq, Repr

/-- What `ucnv_toUChars` leaves behind. -/
structure ToUChars where
  /-- return value: number of code units, the terminator not counted -/
  length : Int
  /-- the status after the call -/
  status : UErrorCode
  /-- code units in the pivot buffer -/
  uBuf : List Nat
  /-- the field `flag` of the `ToUFLAGContext` after the call -/
  flag : Bool
deriving DecidableEq, Repr

/-- What `ucnv_fromUChars` leaves behind. -/
structure FromUChars where
  /-- return value: number of bytes, the terminator not counted -/
  length : Int
  /-- the status after the call -/
  status : UErrorCode
  /-- bytes in the output buffer -/
  buf : List Nat
  /-- the field `flag` of the `FromUFLAGContext` after the call -/
  flag : Bool
deriving DecidableEq, Repr

/-- The library calls of the source whose results it branches on. Each field
gives the status the call leaves in `status` (and its other results); a
converter is identified by the name it was opened with. -/
structure ICU where
  /-- the sequence `ucsdet_open`, `ucsdet_setText(csd, cbuffer, -1)`,
  `ucsdet_detect`: final status and best match (`none` is NULL) -/
  ucsdet_detect : CString → UErrorCode × Option UCharsetMatch
  /-- the status after `ucnv_open(name)` -/
  ucnv_open : CString → UErrorCode
  /-- the status after `ucnv_setToUCallBack(conv, UCNV_TO_U_CALLBACK_SKIP, ..)` -/
  ucnv_setToUCallBack_SKIP : CString → UErrorCode
  /-- the status after `ucnv_setToUCallBack(conv, flagCB_toU, context, ..)` -/
  ucnv_setToUCallBack_flagCB : CString → UErrorCode
  /-- the value of `ucnv_getMinCharSize(conv)` -/
  ucnv_getMinCharSize : CString → Nat
  /-- whether `palloc0(size)` returns a non-NULL pointer -/
  palloc0 : Nat → Bool
  /-- the call `ucnv_toUChars(conv, *uBuf, destCapacity, src, -1, &status)` for the
  converter opened as `name`, with the skipping callbacks installed or not -/
  ucnv_toUChars : (name : CString) → (skipping : Bool) → (destCapacity : Int) →
    (src : CString) → ToUChars
  /-- the status after `ucnv_setFromUCallBack(conv, UCNV_FROM_U_CALLBACK_SKIP, ..)` -/
  ucnv_setFromUCallBack_SKIP : UErrorCode
  /-- the status after `ucnv_setFromUCallBack(conv, flagCB_fromU, context, ..)` -/
  ucnv_setFromUCallBack_flagCB : UErrorCode
  /-- the call `ucnv_fromUChars(conv, *converted_buf, *converted_buf_len, buffer, -1,
  &status)` on the utf-8 converter, with the skipping callbacks installed or not -/
  ucnv_fromUChars : (skipping : Bool) → (destCapacity : Int) → (src : List Nat) →
    FromUChars

/-- One call into ICU (or into the allocator), as recorded by the embedding. -/
inductive ICUCall where
  | ucsdet_open
  | ucsdet_setText (cbuffer : CString)
  | ucsdet_detect
  | ucsdet_getName
  | ucsdet_getLanguage
  | ucsdet_getConfidence
  | ucsdet_close
  | ucnv_open (name : CString)
  | ucnv_setToUCallBack
  | ucnv_setFromUCallBack
  | ucnv_getMinCharSize
  | palloc0 (size : Int)
  | ucnv_toUChars (destCapacity : Int) (src : CString)
  | ucnv_fromUChars (destCapacity : Int) (src : List Nat)
  | ucnv_close
deriving DecidableEq, Repr

/-- Calls of the charset detector. -/
def ICUCall.isDetector : ICUCall → Bool
  | .ucsdet_open => true
  | .ucsdet_setText _ => true
  | .ucsdet_detect => true
  | .ucsdet_getName => true
  | .ucsdet_getLanguage => true
  | .ucsdet_getConfidence => true
  | .ucsdet_close => true
  | _ => false

/-- Calls of a converter (decoder or encoder). -/
def ICUCall.isConverter : ICUCall → Bool
  | .ucnv_open _ => true
  | .ucnv_setToUCallBack => true
  | .ucnv_setFromUCallBack => true
  | .ucnv_getMinCharSize => true
  | .ucnv_toUChars _ _ => true
  | .ucnv_fromUChars _ _ => true
  | .ucnv_close => true
  | _ => false

/-! ## detect_ICU -/

/-- Return value and out-parameters of `detect_ICU`. -/
structure DetectResult where
  status : UErrorCode
  encoding : Option text
  lang : Option text
  confidence : Int
  calls : List ICUCall
deriving DecidableEq, Repr

/-- `detect_ICU(buffer, &encoding, &lang, &confidence)`. -/
def detect_ICU (icu : ICU) (buffer : text) : DetectResult :=
  let cbuffer := text_to_cstring buffer
  let r := icu.ucsdet_detect cbuffer
  let status := r.1
  let opened := [ICUCall.ucsdet_open, ICUCall.ucsdet_setText cbuffer, ICUCall.ucsdet_detect]
  match r.2 with
  | none =>
    { status := status
      encoding := some (cstring_to_text (cstr "ISO-8859-1"))
      lang := none
      confidence := 0
      calls := opened ++ [ICUCall.ucsdet_close] }
  | some csm =>
    if U_FAILURE status then
      { status := status
        encoding := none
        lang := none
        confidence := 0
        calls := opened ++ [ICUCall.ucsdet_close] }
    else
      { status := status
        encoding := some (cstring_to_text csm.name)
        lang := some (cstring_to_text csm.language)
        confidence := (csm.confidence.val : Int)
        calls := opened ++ [ICUCall.ucsdet_getName, ICUCall.ucsdet_getLanguage,
          ICUCall.ucsdet_getConfidence, ICUCall.ucsdet_close] }

/-! ## convert_to_unicode -/

/-- The out-parameters `*uBuf`, `*uBuf_len` and `*dropped_bytes` of
`convert_to_unicode`. -/
structure UnicodeOut where
  uBuf : Option (List Nat)
  uBuf_len : Int
  dropped_bytes : Bool
deriving DecidableEq, Repr

/-- Return value of `convert_to_unicode` with its out-parameters. -/
structure UnicodeResult where
  status : UErrorCode
  out : UnicodeOut
  calls : List ICUCall
deriving DecidableEq, Repr

/-- `uBufSize = VARSIZE_ANY_EXHDR(buffer)/ucnv_getMinCharSize(conv) + 1` of
`convert_to_unicode`, in code units. -/
def uBufSize_of (icu : ICU) (buffer encoding : text) : Nat :=
  VARSIZE_ANY_EXHDR buffer / icu.ucnv_getMinCharSize (text_to_cstring encoding) + 1

/-- `convert_to_unicode(buffer, encoding, &uBuf, &uBuf_len, force, &dropped_bytes)`;
`out` holds the out-parameters as the caller initialised them. -/
def convert_to_unicode (icu : ICU) (buffer : text) (encoding : text) (force : Bool)
    (out : UnicodeOut) : UnicodeResult :=
  let encoding_cstr := text_to_cstring encoding
  let status := icu.ucnv_open encoding_cstr
  if U_FAILURE status then
    { status := status, out := out,
      calls := [ICUCall.ucnv_open encoding_cstr, ICUCall.ucnv_close] }
  else
    let sk := if force then icu.ucnv_setToUCallBack_SKIP encoding_cstr else status
    if force && U_FAILURE sk then
      { status := sk, out := out,
        calls := [ICUCall.ucnv_open encoding_cstr, ICUCall.ucnv_setToUCallBack,
          ICUCall.ucnv_close] }
    else
      let fl := if force then icu.ucnv_setToUCallBack_flagCB encoding_cstr else status
      if force && U_FAILURE fl then
        { status := fl, out := out,
          calls := [ICUCall.ucnv_open encoding_cstr, ICUCall.ucnv_setToUCallBack,
            ICUCall.ucnv_setToUCallBack, ICUCall.ucnv_close] }
      else
        let setup := ICUCall.ucnv_open encoding_cstr ::
          (if force then [ICUCall.ucnv_setToUCallBack, ICUCall.ucnv_setToUCallBack] else [])
        let uBufSize := uBufSize_of icu buffer encoding
        let alloc := [ICUCall.ucnv_getMinCharSize, ICUCall.palloc0 ((uBufSize : Int) * 2)]
        if icu.palloc0 (uBufSize * 2) = false then
          { status := U_MEMORY_ALLOCATION_ERROR
            out := { out with uBuf := none }
            calls := setup ++ alloc ++ [ICUCall.ucnv_close] }
        else
          let src := text_to_cstring buffer
          let r := icu.ucnv_toUChars encoding_cstr force (toInt32 uBufSize) src
          let calls := setup ++ alloc ++
            [ICUCall.ucnv_toUChars (toInt32 uBufSize) src, ICUCall.ucnv_close]
          if U_SUCCESS r.status then
            { status := r.status
              out := { uBuf := some r.uBuf
                       uBuf_len := toInt32 (r.length + 1)
                       dropped_bytes := if force then r.flag else false }
              calls := calls }
          else
            { status := r.status
              out := { out with uBuf := some r.uBuf }
              calls := calls }

/-! ## convert_to_utf8 -/

/-- The out-parameters `*converted_buf` (its content), `*converted_buf_len` and
`*dropped_bytes` of `convert_to_utf8`. -/
structure Utf8Out where
  converted_buf : List Nat
  converted_buf_len : Int
  dropped_bytes : Bool
deriving DecidableEq, Repr

/-- Return value of `convert_to_utf8` with its out-parameters. -/
structure Utf8Result where
  status : UErrorCode
  out : Utf8Out
  calls : List ICUCall
deriving DecidableEq, Repr

/-- `convert_to_utf8(buffer, buffer_len, &converted_buf, &converted_buf_len, force,
&dropped_bytes)`; `buffer` is read up to its terminating zero unit, `buffer_len`
is not used by the source. -/
def convert_to_utf8 (icu : ICU) (buffer : List Nat) (_buffer_len : Int) (force : Bool)
    (out : Utf8Out) : Utf8Result :=
  let name := cstr "utf-8"
  let status := icu.ucnv_open name
  if U_FAILURE status then
    { status := status, out := out, calls := [ICUCall.ucnv_open name, ICUCall.ucnv_close] }
  else
    let sk := if force then icu.ucnv_setFromUCallBack_SKIP else status
    if force && U_FAILURE sk then
      { status := sk, out := out,
        calls := [ICUCall.ucnv_open name, ICUCall.ucnv_setFromUCallBack, ICUCall.ucnv_close] }
    else
      let fl := if force then icu.ucnv_setFromUCallBack_flagCB else status
      if force && U_FAILURE fl then
        { status := fl, out := out,
          calls := [ICUCall.ucnv_open name, ICUCall.ucnv_setFromUCallBack,
            ICUCall.ucnv_setFromUCallBack, ICUCall.ucnv_close] }
      else
        let setup := ICUCall.ucnv_open name ::
          (if force then [ICUCall.ucnv_setFromUCallBack, ICUCall.ucnv_setFromUCallBack]
           else [])
        let src := c_str buffer
        let r := icu.ucnv_fromUChars force out.converted_buf_len src
        let calls := setup ++
          [ICUCall.ucnv_fromUChars out.converted_buf_len src, ICUCall.ucnv_close]
        if U_SUCCESS r.status then
          { status := r.status
            out := { converted_buf := r.buf
                     converted_buf_len := r.length
                     dropped_bytes := if force then r.flag else false }
            calls := calls }
        else
          { status := r.status
            out := { out with converted_buf := r.buf }
            calls := calls }

/-! ## convert_to_UTF8 -/

/-- The composite value built by `heap_form_tuple` in `convert_to_UTF8`: a column
whose entry of `nulls` is set is `none`. -/
structure ConversionResult where
  text_out : Option text
  converted : Bool
  dropped_bytes : Bool
deriving DecidableEq, Repr

/-- A completed call of `convert_to_UTF8`: the tuple and the calls made. -/
structure ConversionRun where
  result : ConversionResult
  calls : List ICUCall
deriving DecidableEq, Repr

/-- Column 0 of the tuple: `nulls[0]` is set when the pointer is NULL or the text
has no payload (`text_out == NULL || ! VARSIZE_ANY_EXHDR(text_out)`). -/
def text_column (p : Option text) : Option text :=
  match p with
  | none => none
  | some t => if VARSIZE_ANY_EXHDR t = 0 then none else some t

/-- The tail of `convert_to_UTF8` from `values[0] = PointerGetDatum(text_out)` on. -/
def form_conversion_tuple (text_out : Option text) (converted dropped_bytes : Bool)
    (calls : List ICUCall) : ConversionRun :=
  { result := { text_out := text_column text_out
                converted := converted
                dropped_bytes := dropped_bytes }
    calls := calls }

/-- The test `strcmp("UTF-8", e) == 0 || strcmp("utf-8", e) == 0 ||
strcmp("UTF8", e) == 0 || strcmp("utf8", e) == 0` of `convert_to_UTF8`. -/
def is_utf8_name (e : CString) : Bool :=
  decide (0 = strcmp (cstr "UTF-8") e) || decide (0 = strcmp (cstr "utf-8") e) ||
  decide (0 = strcmp (cstr "UTF8") e) || decide (0 = strcmp (cstr "utf8") e)

/-- The out-parameters of `convert_to_unicode` as `convert_to_UTF8` initialises
them: `uBuf = NULL`, `uBuf_len = 0`, `dropped_bytes_toU = false`. -/
def unicode_out_init : UnicodeOut :=
  { uBuf := none, uBuf_len := 0, dropped_bytes := false }

/-- The out-parameters of `convert_to_utf8` as `convert_to_UTF8` initialises them:
a zeroed buffer of `converted_buf_len` bytes, `dropped_bytes_fromU = false`. -/
def utf8_out_init (converted_buf_len : Int) : Utf8Out :=
  { converted_buf := [], converted_buf_len := converted_buf_len, dropped_bytes := false }

/-- The step `if (U_SUCCESS(status)) status = convert_to_unicode(..)` of
`convert_to_UTF8`. -/
def decode_step (icu : ICU) (buffer encoding : text) (force : Bool)
    (status : UErrorCode) : UnicodeResult :=
  if U_SUCCESS status then
    convert_to_unicode icu buffer encoding force unicode_out_init
  else
    { status := status, out := unicode_out_init, calls := [] }

/-- The step `if (U_SUCCESS(status)) status = convert_to_utf8(..)` of
`convert_to_UTF8`; a NULL `uBuf` cannot reach the call. -/
def encode_step (icu : ICU) (u : UnicodeOut) (converted_buf_len : Int) (force : Bool)
    (status : UErrorCode) : Utf8Result :=
  if U_SUCCESS status then
    convert_to_utf8 icu (u.uBuf.getD []) u.uBuf_len force (utf8_out_init converted_buf_len)
  else
    { status := status, out := utf8_out_init converted_buf_len, calls := [] }

/-- `int32_t converted_buf_len = cbuffer_len * 6 * sizeof(char)` with
`cbuffer_len = strlen(cbuffer)` stored in an `int`. -/
def converted_buf_len_of (cbuffer : CString) : Int :=
  toInt32 (toInt32 (strlen cbuffer) * 6 * 1)

/-- `cbuffer_len = strlen(cbuffer)` of `convert_to_UTF8`, stored in an `int`, for
`cbuffer = text_to_cstring(buffer)`. -/
def cbuffer_len_of (buffer : text) : Int :=
  toInt32 (strlen (text_to_cstring buffer))

/-- `convert_to_UTF8(buffer, force)`. The result is `none` when the source
dereferences a NULL pointer (`text_to_cstring(encoding)` with `encoding == NULL`). -/
def convert_to_UTF8 (icu : ICU) (buffer : Option text) (force : Bool) :
    Option ConversionRun :=
  match buffer with
  | none => some (form_conversion_tuple none true false [])
  | some b =>
    let cbuffer := text_to_cstring b
    let cbuffer_len := cbuffer_len_of b
    if decide (0 = cbuffer_len) || decide (0 = strcmp (cstr "") cbuffer) then
      some (form_conversion_tuple (some b) true false [])
    else
      let converted_buf_len := converted_buf_len_of cbuffer
      let d := detect_ICU icu b
      let calls0 := ICUCall.palloc0 converted_buf_len :: d.calls
      match d.encoding with
      | none => none
      | some encoding =>
        if is_utf8_name (text_to_cstring encoding) then
          some (form_conversion_tuple (some b) true false calls0)
        else
          let u := decode_step icu b encoding force d.status
          let e := encode_step icu u.out converted_buf_len force u.status
          let calls := calls0 ++ u.calls ++ e.calls
          if U_SUCCESS e.status then
            some (form_conversion_tuple (some (cstring_to_text e.out.converted_buf)) true
              (u.out.dropped_bytes || e.out.dropped_bytes) calls)
          else
            some (form_conversion_tuple (some b) false false calls)

/-- The call `convert_to_unicode(buffer, encoding, &uBuf, &uBuf_len, force,
&dropped_bytes_toU)` as `convert_to_UTF8` makes it. -/
def decode_call (icu : ICU) (buffer encoding : text) (force : Bool) : UnicodeResult :=
  convert_to_unicode icu buffer encoding force unicode_out_init

/-- The call `convert_to_utf8(uBuf, uBuf_len, &converted_buf, &converted_buf_len,
force, &dropped_bytes_fromU)` as `convert_to_UTF8` makes it after `decode_call`. -/
def encode_call (icu : ICU) (buffer encoding : text) (force : Bool) : Utf8Result :=
  convert_to_utf8 icu ((decode_call icu buffer encoding force).out.uBuf.getD [])
    (decode_call icu buffer encoding force).out.uBuf_len force
    (utf8_out_init (converted_buf_len_of (text_to_cstring buffer)))

/-! ## char_set_detect -/

/-- The composite value built by `heap_form_tuple` in `char_set_detect`: a column
whose entry of `nulls` is set is `none`. -/
structure DetectTuple where
  encoding : Option text
  language : Option text
  confidence : Option Int
deriving DecidableEq, Repr

/-- `char_set_detect(buffer)`. -/
def char_set_detect (icu : ICU) (buffer : text) : DetectTuple :=
  let d := detect_ICU icu buffer
  let encoding := text_column d.encoding
  { encoding := encoding
    language := text_column d.lang
    confidence := if encoding = none then none else some d.confidence }

/-! ## Sample ICU behaviours -/

/-- An ICU whose calls return the given results on every input; converters open
and callbacks install without error, allocation succeeds, one byte per
character. -/
def constICU (det : UErrorCode × Option UCharsetMatch) (toU : ToUChars)
    (fromU : FromUChars) : ICU :=
  { ucsdet_detect := fun _ => det
    ucnv_open := fun _ => U_ZERO_ERROR
    ucnv_setToUCallBack_SKIP := fun _ => U_ZERO_ERROR
    ucnv_setToUCallBack_flagCB := fun _ => U_ZERO_ERROR
    ucnv_getMinCharSize := fun _ => 1
    palloc0 := fun _ => true
    ucnv_toUChars := fun _ _ _ _ => toU
    ucnv_setFromUCallBack_SKIP := U_ZERO_ERROR
    ucnv_setFromUCallBack_flagCB := U_ZERO_ERROR
    ucnv_fromUChars := fun _ _ _ => fromU }

/-- ISO-8859-1, French, confidence 30. -/
def cafe_match : UCharsetMatch :=
  { name := cstr "ISO-8859-1", language := cstr "fr", confidence := 30 }

/-- An ICU for the bytes `63 61 66 E9`: detected as ISO-8859-1, decoded to four
code units, encoded to five bytes of UTF-8. -/
def cafeICU : ICU :=
  constICU (U_ZERO_ERROR, some cafe_match)
    { length := 4, status := U_ZERO_ERROR, uBuf := [99, 97, 102, 233], flag := false }
    { length := 5, status := U_ZERO_ERROR, buf := [99, 97, 102, 195, 169], flag := false }

/-- An ICU whose detector answers UTF-8 with confidence 100 and leaves the
warning status -128 (`U_USING_FALLBACK_WARNING`). -/
def utf8ICU : ICU :=
  constICU (-128, some { name := cstr "UTF-8", language := cstr "", confidence := 100 })
    { length := 0, status := U_ZERO_ERROR, uBuf := [], flag := false }
    { length := 0, status := U_ZERO_ERROR, buf := [], flag := false }

/-- An ICU whose detector spells its answer `Utf-8`; the converters map the two
bytes `68 69` to themselves. -/
def mixedCaseICU : ICU :=
  constICU (U_ZERO_ERROR, some { name := cstr "Utf-8", language := cstr "", confidence := 80 })
    { length := 2, status := U_ZERO_ERROR, uBuf := [104, 105], flag := false }
    { length := 2, status := U_ZERO_ERROR, buf := [104, 105], flag := false }

/-- An ICU that detects ISO-8859-1, drops a byte while decoding `63 E9` under the
skipping callbacks, and then fails in `ucnv_fromUChars` with status 5
(`U_INTERNAL_PROGRAM_ERROR`). -/
def encodeFailICU : ICU :=
  constICU (U_ZERO_ERROR, some cafe_match)
    { length := 1, status := U_ZERO_ERROR, uBuf := [99], flag := true }
    { length := 0, status := 5, buf := [], flag := false }

/-- An ICU that detects ISO-8859-1 and drops one of the bytes `63 FF` in each
direction under the skipping callbacks. -/
def droppingICU : ICU :=
  constICU (U_ZERO_ERROR, some cafe_match)
    { length := 1, status := U_ZERO_ERROR, uBuf := [99], flag := true }
    { length := 1, status := U_ZERO_ERROR, buf := [99], flag := false }

/-- An ICU for the bytes `1B 28 42` (an ISO-2022-JP escape sequence and nothing
else): detected as ISO-2022-JP, decoded to no code unit, encoded to no byte. -/
def escapeOnlyICU : ICU :=
  constICU (U_ZERO_ERROR,
      some { name := cstr "ISO-2022-JP", language := cstr "ja", confidence := 60 })
    { length := 0, status := U_ZERO_ERROR, uBuf := [], flag := false }
    { length := 0, status := U_ZERO_ERROR, buf := [], flag := false }

/-- An ICU whose detector finds no match, with a clean status. -/
def noMatchICU : ICU :=
  constICU (U_ZERO_ERROR, none)
    { length := 2, status := U_ZERO_ERROR, uBuf := [99, 233], flag := false }
    { length := 3, status := U_ZERO_ERROR, buf := [99, 195, 169], flag := false }

/-- An ICU whose detector fails with status 7 (`U_MEMORY_ALLOCATION_ERROR`) and no
match; every converter opens, every allocation succeeds and the conversions
themselves succeed. -/
def detectorErrorICU : ICU :=
  constICU (7, none)
    { length := 2, status := U_ZERO_ERROR, uBuf := [99, 233], flag := false }
    { length := 3, status := U_ZERO_ERROR, buf := [99, 195, 169], flag := false }

/-- UTF-8 bytes of one code unit below `0x800`. -/
def utf8_of_unit (u : Nat) : List Nat :=
  if u < 128 then [u] else [192 + u / 64, 128 + u % 64]

/-- An ICU with working ISO-8859-1 and utf-8 converters (one code unit per byte,
then its UTF-8 bytes) under the given detector. -/
def latin1ICU (det : CString → UErrorCode × Option UCharsetMatch) : ICU :=
  { ucsdet_detect := det
    ucnv_open := fun _ => U_ZERO_ERROR
    ucnv_setToUCallBack_SKIP := fun _ => U_ZERO_ERROR
    ucnv_setToUCallBack_flagCB := fun _ => U_ZERO_ERROR
    ucnv_getMinCharSize := fun _ => 1
    palloc0 := fun _ => true
    ucnv_toUChars := fun _ _ _ src =>
      { length := src.length, status := U_ZERO_ERROR, uBuf := src, flag := false }
    ucnv_setFromUCallBack_SKIP := U_ZERO_ERROR
    ucnv_setFromUCallBack_flagCB := U_ZERO_ERROR
    ucnv_fromUChars := fun _ _ src =>
      { length := ((src.map utf8_of_unit).flatten.length : Int), status := U_ZERO_ERROR,
        buf := (src.map utf8_of_unit).flatten, flag := false } }

/-- A detector that takes every input for ISO-8859-1 (confidence 30). -/
def alwaysLatin1 : CString → UErrorCode × Option UCharsetMatch :=
  fun _ => (U_ZERO_ERROR, some cafe_match)

/-- A detector that answers UTF-8 (confidence 80) when the input holds the lead
byte `C3`, and ISO-8859-1 otherwise. -/
def leadByteDetector : CString → UErrorCode × Option UCharsetMatch :=
  fun s =>
    if 195 ∈ s then
      (U_ZERO_ERROR, some { name := cstr "UTF-8", language := cstr "", confidence := 80 })
    else (U_ZERO_ERROR, some cafe_match)

/-- The bytes `FE FF` (a UTF-16BE byte order mark) followed by `n` bytes `41`. -/
def utf16_input (n : Nat) : text :=
  [254, 255] ++ List.replicate n 65

/-- An ICU that detects UTF-16BE (confidence 100) and whose converter reports a
minimum character size of 2. -/
def utf16ICU : ICU :=
  { constICU (U_ZERO_ERROR,
        some { name := cstr "UTF-16BE", language := cstr "", confidence := 100 })
      { length := 0, status := U_ZERO_ERROR, uBuf := [], flag := false }
      { length := 0, status := U_ZERO_ERROR, buf := [], flag := false } with
    ucnv_getMinCharSize := fun _ => 2 }

/-- ASCII `tolower` on one byte. -/
def ascii_tolower (c : Nat) : Nat :=
  if 65 ≤ c ∧ c ≤ 90 then c + 32 else c

/-- The reading of the specification for the UTF-8 exit: the name is `UTF-8` or
`UTF8` when letter case is ignored. -/
def denotes_utf8_ignoring_case (e : CString) : Bool :=
  decide (e.map ascii_tolower = cstr "utf-8") || decide (e.map ascii_tolower = cstr "utf8")

/-! ## Basic facts -/

theorem U_SUCCESS_eq_not_FAILURE (x : UErrorCode) : U_SUCCESS x = !U_FAILURE x := by
  unfold U_SUCCESS U_FAILURE
  by_cases h : x ≤ U_ZERO_ERROR
  · have h2 : ¬ x > U_ZERO_ERROR := not_lt.mpr h
    simp [h, h2]
  · have h2 : x > U_ZERO_ERROR := not_le.mp h
    simp [h, h2]

theorem U_SUCCESS_false_of_FAILURE {x : UErrorCode} (h : U_FAILURE x = true) :
    U_SUCCESS x = false := by
  rw [U_SUCCESS_eq_not_FAILURE, h]; rfl

theorem U_FAILURE_false_of_SUCCESS {x : UErrorCode} (h : U_SUCCESS x = true) :
    U_FAILURE x = false := by
  rw [U_SUCCESS_eq_not_FAILURE] at h
  cases hf : U_FAILURE x
  · rfl
  · rw [hf] at h; exact absurd h (by decide)

theorem c_str_ne_zero {mem : List Nat} {x : Nat} (h : x ∈ c_str mem) : x ≠ 0 := by
  have h2 := List.mem_takeWhile_imp h
  simpa using h2

theorem c_str_of_no_zero {mem : List Nat} (h : ∀ x ∈ mem, x ≠ 0) : c_str mem = mem := by
  unfold c_str
  rw [List.takeWhile_eq_self_iff]
  intro x hx
  simpa using h x hx

theorem c_str_c_str (mem : List Nat) : c_str (c_str mem) = c_str mem :=
  c_str_of_no_zero (fun _ hx => c_str_ne_zero hx)

theorem strcmp_self (a : CString) : strcmp a a = 0 := by
  induction a with
  | nil => rfl
  | cons x xs ih => simp [strcmp, ih]

theorem strcmp_eq_zero {a : CString} : ∀ {b : CString}, (∀ x ∈ a, x ≠ 0) →
    (∀ x ∈ b, x ≠ 0) → strcmp a b = 0 → a = b := by
  induction a with
  | nil =>
    intro b _ hb h
    cases b with
    | nil => rfl
    | cons y ys =>
      exfalso
      have hy : y ≠ 0 := hb y (List.mem_cons_self y ys)
      simp [strcmp] at h
      exact hy h
  | cons x xs ih =>
    intro b ha hb h
    cases b with
    | nil =>
      exfalso
      have hx : x ≠ 0 := ha x (List.mem_cons_self x xs)
      simp [strcmp] at h
      exact hx h
    | cons y ys =>
      by_cases hxy : x = y
      · subst hxy
        simp [strcmp] at h
        have := ih (fun z hz => ha z (List.mem_cons_of_mem _ hz))
          (fun z hz => hb z (List.mem_cons_of_mem _ hz)) h
        rw [this]
      · exfalso
        simp [strcmp, hxy] at h
        omega

/-- On C strings the test of `convert_to_UTF8` holds exactly for the four
spellings it lists. -/
theorem is_utf8_name_iff {e : CString} (he : ∀ x ∈ e, x ≠ 0) :
    is_utf8_name e = true ↔
      (e = cstr "UTF-8" ∨ e = cstr "utf-8" ∨ e = cstr "UTF8" ∨ e = cstr "utf8") := by
  have nz : ∀ s : String, ∀ x ∈ cstr s, x ≠ 0 := fun s x hx => c_str_ne_zero hx
  constructor
  · intro h
    simp only [is_utf8_name, Bool.or_eq_true, decide_eq_true_eq] at h
    rcases h with ((h | h) | h) | h
    · left
      exact (strcmp_eq_zero (nz _) he h.symm).symm
    · right; left
      exact (strcmp_eq_zero (nz _) he h.symm).symm
    · right; right; left
      exact (strcmp_eq_zero (nz _) he h.symm).symm
    · right; right; right
      exact (strcmp_eq_zero (nz _) he h.symm).symm
  · intro h
    rcases h with h | h | h | h <;> subst h <;> decide

/-- A buffer with `cbuffer_len != 0` does not take the zero-length exit of
`convert_to_UTF8`. -/
theorem not_blank_of_cbuffer_len {b : text} (h : cbuffer_len_of b ≠ 0) :
    (decide (0 = cbuffer_len_of b) || decide (0 = strcmp (cstr "") (text_to_cstring b)))
      = false := by
  have h1 : ¬ (0 = cbuffer_len_of b) := fun e => h e.symm
  have h2 : text_to_cstring b ≠ [] := by
    intro e
    apply h
    simp [cbuffer_len_of, e, strlen, toInt32]
  have h3 : ¬ (0 = strcmp (cstr "") (text_to_cstring b)) := by
    intro e
    apply h2
    have hz : ∀ x ∈ text_to_cstring b, x ≠ 0 := fun x hx => c_str_ne_zero hx
    exact (strcmp_eq_zero (fun x hx => c_str_ne_zero hx) hz e.symm).symm
  simp [h1, h3]

/-! ## Shape of a run of convert_to_UTF8 -/

theorem detect_ICU_calls_not_converter (icu : ICU) (b : text) :
    ∀ c ∈ (detect_ICU icu b).calls, c.isConverter = false := by
  intro c hc
  cases h : (icu.ucsdet_detect (text_to_cstring b)).2 with
  | none =>
    simp [detect_ICU, h] at hc
    rcases hc with h | h | h | h <;> subst h <;> rfl
  | some m =>
    by_cases hf : U_FAILURE (icu.ucsdet_detect (text_to_cstring b)).1 = true
    · simp [detect_ICU, h, hf] at hc
      rcases hc with h | h | h | h <;> subst h <;> rfl
    · simp [detect_ICU, h, hf] at hc
      rcases hc with h | h | h | h | h | h | h <;> subst h <;> rfl

theorem ne_nil_of_cbuffer_len {b : text} (h : cbuffer_len_of b ≠ 0) : b ≠ [] := by
  intro e
  apply h
  subst e
  rfl

theorem text_column_of_ne_nil {t : text} (h : t ≠ []) : text_column (some t) = some t := by
  have : ¬ (VARSIZE_ANY_EXHDR t = 0) := by
    simpa [VARSIZE_ANY_EXHDR] using h
  simp [text_column, this]

/-- The zero-length exit: taken when `cbuffer_len` is 0. -/
theorem convert_to_UTF8_of_blank {icu : ICU} {b : text} {force : Bool}
    (h : cbuffer_len_of b = 0) :
    convert_to_UTF8 icu (some b) force = some (form_conversion_tuple (some b) true false []) := by
  unfold convert_to_UTF8
  simp [h]

/-- Past the zero-length exit the run is decided by the detected encoding. -/
theorem convert_to_UTF8_of_cbuffer_len {icu : ICU} {b : text} {force : Bool}
    (h : cbuffer_len_of b ≠ 0) :
    convert_to_UTF8 icu (some b) force =
      match (detect_ICU icu b).encoding with
      | none => none
      | some encoding =>
        if is_utf8_name (text_to_cstring encoding) then
          some (form_conversion_tuple (some b) true false
            (ICUCall.palloc0 (converted_buf_len_of (text_to_cstring b)) ::
              (detect_ICU icu b).calls))
        else
          let u := decode_step icu b encoding force (detect_ICU icu b).status
          let e := encode_step icu u.out (converted_buf_len_of (text_to_cstring b)) force
            u.status
          let calls := (ICUCall.palloc0 (converted_buf_len_of (text_to_cstring b)) ::
            (detect_ICU icu b).calls) ++ u.calls ++ e.calls
          if U_SUCCESS e.status then
            some (form_conversion_tuple (some (cstring_to_text e.out.converted_buf)) true
              (u.out.dropped_bytes || e.out.dropped_bytes) calls)
          else
            some (form_conversion_tuple (some b) false false calls) := by
  unfold convert_to_UTF8
  simp only [not_blank_of_cbuffer_len h]
  rfl

/-- The UTF-8 exit, for a name the test of the source accepts. -/
theorem convert_to_UTF8_of_utf8_name {icu : ICU} {b : text} {force : Bool} {enc : text}
    (hb : b ≠ []) (henc : (detect_ICU icu b).encoding = some enc)
    (hname : is_utf8_name (text_to_cstring enc) = true) :
    ∃ r, convert_to_UTF8 icu (some b) force = some r ∧
      r.result = { text_out := some b, converted := true, dropped_bytes := false } ∧
      ∀ c ∈ r.calls, c.isConverter = false := by
  by_cases h : cbuffer_len_of b = 0
  · refine ⟨_, convert_to_UTF8_of_blank h, ?_, ?_⟩
    · simp [form_conversion_tuple, text_column_of_ne_nil hb]
    · intro c hc
      simp [form_conversion_tuple] at hc
  · refine ⟨form_conversion_tuple (some b) true false
      (ICUCall.palloc0 (converted_buf_len_of (text_to_cstring b)) ::
        (detect_ICU icu b).calls), ?_, ?_, ?_⟩
    · rw [convert_to_UTF8_of_cbuffer_len h, henc]
      simp [hname]
    · simp [form_conversion_tuple, text_column_of_ne_nil hb]
    · intro c hc
      simp only [form_conversion_tuple, List.mem_cons] at hc
      rcases hc with hc | hc
      · subst hc; rfl
      · exact detect_ICU_calls_not_converter icu b c hc

/-- The conversion branch, for a name the test of the source rejects. -/
theorem convert_to_UTF8_of_other_name {icu : ICU} {b : text} {force : Bool} {enc : text}
    (hlen : cbuffer_len_of b ≠ 0) (henc : (detect_ICU icu b).encoding = some enc)
    (hname : is_utf8_name (text_to_cstring enc) = false) :
    convert_to_UTF8 icu (some b) force =
      if U_SUCCESS (encode_step icu (decode_step icu b enc force (detect_ICU icu b).status).out
          (converted_buf_len_of (text_to_cstring b)) force
          (decode_step icu b enc force (detect_ICU icu b).status).status).status then
        some (form_conversion_tuple
          (some (cstring_to_text
            (encode_step icu (decode_step icu b enc force (detect_ICU icu b).status).out
              (converted_buf_len_of (text_to_cstring b)) force
              (decode_step icu b enc force (detect_ICU icu b).status).status).out.converted_buf))
          true
          ((decode_step icu b enc force (detect_ICU icu b).status).out.dropped_bytes ||
            (encode_step icu (decode_step icu b enc force (detect_ICU icu b).status).out
              (converted_buf_len_of (text_to_cstring b)) force
              (decode_step icu b enc force (detect_ICU icu b).status).status).out.dropped_bytes)
          ((ICUCall.palloc0 (converted_buf_len_of (text_to_cstring b)) ::
              (detect_ICU icu b).calls) ++
            (decode_step icu b enc force (detect_ICU icu b).status).calls ++
            (encode_step icu (decode_step icu b enc force (detect_ICU icu b).status).out
              (converted_buf_len_of (text_to_cstring b)) force
              (decode_step icu b enc force (detect_ICU icu b).status).status).calls))
      else
        some (form_conversion_tuple (some b) false false
          ((ICUCall.palloc0 (converted_buf_len_of (text_to_cstring b)) ::
              (detect_ICU icu b).calls) ++
            (decode_step icu b enc force (detect_ICU icu b).status).calls ++
            (encode_step icu (decode_step icu b enc force (detect_ICU icu b).status).out
              (converted_buf_len_of (text_to_cstring b)) force
              (decode_step icu b enc force (detect_ICU icu b).status).status).calls)) := by
  rw [convert_to_UTF8_of_cbuffer_len hlen, henc]
  simp [hname]

theorem decode_step_of_success {icu : ICU} {b enc : text} {force : Bool} {st : UErrorCode}
    (h : U_SUCCESS st = true) :
    decode_step icu b enc force st = convert_to_unicode icu b enc force unicode_out_init := by
  simp [decode_step, h]

theorem decode_step_of_failure {icu : ICU} {b enc : text} {force : Bool} {st : UErrorCode}
    (h : U_SUCCESS st = false) :
    decode_step icu b enc force st = { status := st, out := unicode_out_init, calls := [] } := by
  simp [decode_step, h]

theorem encode_step_of_success {icu : ICU} {u : UnicodeOut} {n : Int} {force : Bool}
    {st : UErrorCode} (h : U_SUCCESS st = true) :
    encode_step icu u n force st =
      convert_to_utf8 icu (u.uBuf.getD []) u.uBuf_len force (utf8_out_init n) := by
  simp [encode_step, h]

theorem encode_step_of_failure {icu : ICU} {u : UnicodeOut} {n : Int} {force : Bool}
    {st : UErrorCode} (h : U_SUCCESS st = false) :
    encode_step icu u n force st = { status := st, out := utf8_out_init n, calls := [] } := by
  simp [encode_step, h]

/-- Every call of `convert_to_unicode` opens a converter for the encoding. -/
theorem convert_to_unicode_opens (icu : ICU) (b enc : text) (force : Bool) (out : UnicodeOut) :
    ICUCall.ucnv_open (text_to_cstring enc) ∈ (convert_to_unicode icu b enc force out).calls := by
  unfold convert_to_unicode
  dsimp only
  split_ifs <;> simp

/-! ## C1: the empty buffer -/

/-- C1, as stated, fails: for the empty buffer the tuple of `convert_to_UTF8` is not
(empty text, converted, nothing dropped); its text column is null. -/
theorem C1_empty_text_is_null_counterexample :
    ¬ ((convert_to_UTF8 cafeICU (some []) true).map (fun r => r.result) =
        some { text_out := some [], converted := true, dropped_bytes := false }) := by
  decide

/-- C1, amended: for every ICU and every value of `force`, `convert_to_UTF8` on the
empty buffer returns a tuple whose text column is null (the zero-length input is
reported as absent), with `converted = true` and `dropped_bytes = false`, and makes
no call to the detector, the decoder or the encoder. -/
theorem C1_empty_buffer (icu : ICU) (force : Bool) :
    convert_to_UTF8 icu (some []) force =
      some { result := { text_out := none, converted := true, dropped_bytes := false }
             calls := [] } := by
  rfl

/-! ## C2: the UTF-8 exit -/

/-- C2: for every non-empty buffer `b` and every `force`, if the encoding name
returned by detection is exactly `UTF-8`, `utf-8`, `UTF8` or `utf8`, then
`convert_to_UTF8` returns `b` unchanged with `converted = true` and
`dropped_bytes = false`, whatever the detection status, and calls no converter. -/
theorem C2_utf8_detected_passes_through (icu : ICU) (b : text) (force : Bool) (hb : b ≠ [])
    (hname : (detect_ICU icu b).encoding = some (cstr "UTF-8") ∨
      (detect_ICU icu b).encoding = some (cstr "utf-8") ∨
      (detect_ICU icu b).encoding = some (cstr "UTF8") ∨
      (detect_ICU icu b).encoding = some (cstr "utf8")) :
    ∃ r, convert_to_UTF8 icu (some b) force = some r ∧
      r.result = { text_out := some b, converted := true, dropped_bytes := false } ∧
      ∀ c ∈ r.calls, c.isConverter = false := by
  rcases hname with h | h | h | h
  · exact convert_to_UTF8_of_utf8_name hb h (by decide)
  · exact convert_to_UTF8_of_utf8_name hb h (by decide)
  · exact convert_to_UTF8_of_utf8_name hb h (by decide)
  · exact convert_to_UTF8_of_utf8_name hb h (by decide)

/-- C2 at the bytes of `hello`, detected as UTF-8 with a warning status. -/
theorem C2_utf8_detected_passes_through_witness :
    (detect_ICU utf8ICU [104, 101, 108, 108, 111]).status = -128 ∧
    ∃ r, convert_to_UTF8 utf8ICU (some [104, 101, 108, 108, 111]) true = some r ∧
      r.result = { text_out := some [104, 101, 108, 108, 111], converted := true,
                   dropped_bytes := false } ∧
      ∀ c ∈ r.calls, c.isConverter = false :=
  ⟨by decide,
   C2_utf8_detected_passes_through utf8ICU [104, 101, 108, 108, 111] true (by decide)
     (Or.inl (by decide))⟩

/-! ## C3: spelling of the UTF-8 name -/

/-- C3, as stated, fails: the name `Utf-8` is UTF-8 when letter case is ignored, yet
`convert_to_UTF8` opens converters for it and decodes and encodes the input. -/
theorem C3_mixed_case_name_is_converted_counterexample :
    (detect_ICU mixedCaseICU [104, 105]).encoding = some (cstr "Utf-8") ∧
    denotes_utf8_ignoring_case (cstr "Utf-8") = true ∧
    (convert_to_UTF8 mixedCaseICU (some [104, 105]) false).map
        (fun r => r.calls.any ICUCall.isConverter) = some true ∧
    (convert_to_UTF8 mixedCaseICU (some [104, 105]) false).map
        (fun r => decide (ICUCall.ucnv_toUChars 3 [104, 105] ∈ r.calls) &&
          decide (ICUCall.ucnv_fromUChars 12 [104, 105] ∈ r.calls)) = some true := by
  decide

/-- C3, amended: the UTF-8 exit compares the detected name by exact spelling. For
every buffer with `cbuffer_len != 0`, every `force` and every detected encoding, the
run returns the buffer unchanged with `converted = true`, `dropped_bytes = false`
and no converter call if and only if the name is exactly `UTF-8`, `utf-8`, `UTF8`
or `utf8`; any other spelling is handed to the decoder. -/
theorem C3_utf8_exit_iff_exact_spelling (icu : ICU) (b : text) (force : Bool) (enc : text)
    (hlen : cbuffer_len_of b ≠ 0) (henc : (detect_ICU icu b).encoding = some enc) :
    (∃ r, convert_to_UTF8 icu (some b) force = some r ∧
      r.result = { text_out := some b, converted := true, dropped_bytes := false } ∧
      ∀ c ∈ r.calls, c.isConverter = false) ↔
    (text_to_cstring enc = cstr "UTF-8" ∨ text_to_cstring enc = cstr "utf-8" ∨
      text_to_cstring enc = cstr "UTF8" ∨ text_to_cstring enc = cstr "utf8") := by
  have hz : ∀ x ∈ text_to_cstring enc, x ≠ 0 := fun x hx => c_str_ne_zero hx
  rw [← is_utf8_name_iff hz]
  constructor
  · rintro ⟨r, hrun, hres, hcalls⟩
    cases hname : is_utf8_name (text_to_cstring enc) with
    | true => rfl
    | false =>
      exfalso
      rw [convert_to_UTF8_of_other_name hlen henc hname] at hrun
      split at hrun
      · rename_i hs
        cases hd : U_SUCCESS (detect_ICU icu b).status with
        | false =>
          rw [decode_step_of_failure hd, encode_step_of_failure hd] at hs
          rw [hd] at hs
          exact absurd hs (by decide)
        | true =>
          have hopen := convert_to_unicode_opens icu b enc force unicode_out_init
          have hr := Option.some.inj hrun
          have hmem : ICUCall.ucnv_open (text_to_cstring enc) ∈ r.calls := by
            rw [← hr, decode_step_of_success hd]
            simp only [form_conversion_tuple, List.mem_append]
            exact Or.inl (Or.inr hopen)
          exact absurd (hcalls _ hmem) (by simp [ICUCall.isConverter])
      · have hr := Option.some.inj hrun
        rw [← hr] at hres
        simp [form_conversion_tuple] at hres
  · intro hname
    exact convert_to_UTF8_of_utf8_name (ne_nil_of_cbuffer_len hlen) henc hname

/-- C3 (amended) at the bytes of `hello`, detected as `UTF-8`. -/
theorem C3_utf8_exit_iff_exact_spelling_witness :
    cbuffer_len_of [104, 101, 108, 108, 111] ≠ 0 ∧
    (detect_ICU utf8ICU [104, 101, 108, 108, 111]).encoding = some (cstr "UTF-8") ∧
    ((∃ r, convert_to_UTF8 utf8ICU (some [104, 101, 108, 108, 111]) false = some r ∧
      r.result = { text_out := some [104, 101, 108, 108, 111], converted := true,
                   dropped_bytes := false } ∧
      ∀ c ∈ r.calls, c.isConverter = false) ↔
    (text_to_cstring (cstr "UTF-8") = cstr "UTF-8" ∨
      text_to_cstring (cstr "UTF-8") = cstr "utf-8" ∨
      text_to_cstring (cstr "UTF-8") = cstr "UTF8" ∨
      text_to_cstring (cstr "UTF-8") = cstr "utf8")) :=
  ⟨by decide, by decide,
   C3_utf8_exit_iff_exact_spelling utf8ICU [104, 101, 108, 108, 111] false (cstr "UTF-8")
     (by decide) (by decide)⟩

/-! ## C4 and C5: the conversion branch -/

/-- The last status of the conversion branch is a failure as soon as one of the
two stages, called as `convert_to_UTF8` calls them, ends with a failure. -/
theorem final_status_failure {icu : ICU} {b enc : text} {force : Bool}
    (hfail : U_FAILURE (decode_call icu b enc force).status = true ∨
      U_FAILURE (encode_call icu b enc force).status = true) :
    U_SUCCESS (encode_step icu (decode_step icu b enc force (detect_ICU icu b).status).out
      (converted_buf_len_of (text_to_cstring b)) force
      (decode_step icu b enc force (detect_ICU icu b).status).status).status = false := by
  cases hd : U_SUCCESS (detect_ICU icu b).status with
  | false =>
    rw [decode_step_of_failure hd, encode_step_of_failure hd]
    exact hd
  | true =>
    rw [decode_step_of_success hd]
    cases hu : U_SUCCESS (convert_to_unicode icu b enc force unicode_out_init).status with
    | false =>
      rw [encode_step_of_failure hu]
      exact hu
    | true =>
      rw [encode_step_of_success hu]
      rcases hfail with h | h
      · exact absurd (U_SUCCESS_false_of_FAILURE h) (by simp [decode_call, hu])
      · exact U_SUCCESS_false_of_FAILURE h

/-- When detection and both stages succeed, the steps of `convert_to_UTF8` are the
two calls. -/
theorem steps_of_success (icu : ICU) (b enc : text) (force : Bool)
    (hd : U_SUCCESS (detect_ICU icu b).status = true)
    (hu : U_SUCCESS (decode_call icu b enc force).status = true) :
    decode_step icu b enc force (detect_ICU icu b).status = decode_call icu b enc force ∧
    encode_step icu (decode_step icu b enc force (detect_ICU icu b).status).out
      (converted_buf_len_of (text_to_cstring b)) force
      (decode_step icu b enc force (detect_ICU icu b).status).status =
        encode_call icu b enc force := by
  have h1 : decode_step icu b enc force (detect_ICU icu b).status = decode_call icu b enc force :=
    decode_step_of_success hd
  refine ⟨h1, ?_⟩
  rw [h1, encode_step_of_success hu]
  rfl

/-- C4: for every buffer with `cbuffer_len != 0` whose detected encoding is not one
of the UTF-8 names, and every `force`, if `convert_to_unicode` or `convert_to_utf8`
ends with a failure status, then `convert_to_UTF8` returns the original buffer
unchanged with `converted = false` and `dropped_bytes = false`, whatever the stages
wrote into their own dropped flags. -/
theorem C4_stage_failure_returns_original (icu : ICU) (b : text) (force : Bool) (enc : text)
    (hlen : cbuffer_len_of b ≠ 0) (henc : (detect_ICU icu b).encoding = some enc)
    (hname : is_utf8_name (text_to_cstring enc) = false)
    (hfail : U_FAILURE (decode_call icu b enc force).status = true ∨
      U_FAILURE (encode_call icu b enc force).status = true) :
    ∃ r, convert_to_UTF8 icu (some b) force = some r ∧
      r.result = { text_out := some b, converted := false, dropped_bytes := false } := by
  rw [convert_to_UTF8_of_other_name hlen henc hname, final_status_failure hfail]
  refine ⟨_, rfl, ?_⟩
  simp [form_conversion_tuple, text_column_of_ne_nil (ne_nil_of_cbuffer_len hlen)]

/-- C4 at the bytes `63 E9` with `force = true`: the decoder has set its dropped
flag, the encoder fails, and the input comes back with both flags false. -/
theorem C4_stage_failure_returns_original_witness :
    (decode_call encodeFailICU [99, 233] (cstr "ISO-8859-1") true).out.dropped_bytes = true ∧
    ∃ r, convert_to_UTF8 encodeFailICU (some [99, 233]) true = some r ∧
      r.result = { text_out := some [99, 233], converted := false, dropped_bytes := false } :=
  ⟨by decide,
   C4_stage_failure_returns_original encodeFailICU [99, 233] true (cstr "ISO-8859-1")
     (by decide) (by decide) (by decide) (Or.inr (by decide))⟩

/-- C5, as stated, fails: detection, decoding and encoding of `1B 28 42` all
succeed and the encoder's output is the empty string, but the text column of the
tuple is null, not that (empty) text. -/
theorem C5_empty_output_is_null_counterexample :
    U_SUCCESS (detect_ICU escapeOnlyICU [27, 40, 66]).status = true ∧
    U_SUCCESS (decode_call escapeOnlyICU [27, 40, 66] (cstr "ISO-2022-JP") false).status = true ∧
    U_SUCCESS (encode_call escapeOnlyICU [27, 40, 66] (cstr "ISO-2022-JP") false).status = true ∧
    cstring_to_text
      (encode_call escapeOnlyICU [27, 40, 66] (cstr "ISO-2022-JP") false).out.converted_buf = [] ∧
    (convert_to_UTF8 escapeOnlyICU (some [27, 40, 66]) false).map (fun r => r.result) =
      some { text_out := none, converted := true, dropped_bytes := false } := by
  decide

/-- C5, amended: for every buffer with `cbuffer_len != 0` whose detected encoding is
not one of the UTF-8 names, if detection, `convert_to_unicode` and `convert_to_utf8`
all end with a success status, then `convert_to_UTF8` returns the encoder's output
as text when that output is not empty, and a null text column when it is empty,
with `converted = true` and `dropped_bytes` the disjunction of the dropped flags of
the two stages. -/
theorem C5_success_returns_encoder_output (icu : ICU) (b : text) (force : Bool) (enc : text)
    (hlen : cbuffer_len_of b ≠ 0) (henc : (detect_ICU icu b).encoding = some enc)
    (hname : is_utf8_name (text_to_cstring enc) = false)
    (hd : U_SUCCESS (detect_ICU icu b).status = true)
    (hu : U_SUCCESS (decode_call icu b enc force).status = true)
    (he : U_SUCCESS (encode_call icu b enc force).status = true) :
    ∃ r, convert_to_UTF8 icu (some b) force = some r ∧
      r.result.text_out =
        (if cstring_to_text (encode_call icu b enc force).out.converted_buf = [] then none
         else some (cstring_to_text (encode_call icu b enc force).out.converted_buf)) ∧
      r.result.converted = true ∧
      r.result.dropped_bytes =
        ((decode_call icu b enc force).out.dropped_bytes ||
          (encode_call icu b enc force).out.dropped_bytes) := by
  obtain ⟨h1, h2⟩ := steps_of_success icu b enc force hd hu
  rw [convert_to_UTF8_of_other_name hlen henc hname, h2, h1, he]
  refine ⟨_, rfl, ?_, rfl, rfl⟩
  simp [form_conversion_tuple, text_column, VARSIZE_ANY_EXHDR]

/-- C5 (amended) at the bytes `63 FF` with `force = true`: the decoder dropped a
byte, the encoder did not, the output is `63` and `dropped_bytes` is true. -/
theorem C5_success_returns_encoder_output_witness :
    (convert_to_UTF8 droppingICU (some [99, 255]) true).map (fun r => r.result) =
      some { text_out := some [99], converted := true, dropped_bytes := true } ∧
    ∃ r, convert_to_UTF8 droppingICU (some [99, 255]) true = some r ∧
      r.result.text_out =
        (if cstring_to_text
            (encode_call droppingICU [99, 255] (cstr "ISO-8859-1") true).out.converted_buf = []
         then none
         else some (cstring_to_text
            (encode_call droppingICU [99, 255] (cstr "ISO-8859-1") true).out.converted_buf)) ∧
      r.result.converted = true ∧
      r.result.dropped_bytes =
        ((decode_call droppingICU [99, 255] (cstr "ISO-8859-1") true).out.dropped_bytes ||
          (encode_call droppingICU [99, 255] (cstr "ISO-8859-1") true).out.dropped_bytes) :=
  ⟨by decide,
   C5_success_returns_encoder_output droppingICU [99, 255] true (cstr "ISO-8859-1")
    (by decide) (by decide) (by decide) (by decide) (by decide) (by decide)⟩

/-! ## C6 and C7: what detection returns -/

theorem detect_ICU_of_no_match {icu : ICU} {b : text}
    (h : (icu.ucsdet_detect (text_to_cstring b)).2 = none) :
    detect_ICU icu b =
      { status := (icu.ucsdet_detect (text_to_cstring b)).1
        encoding := some (cstr "ISO-8859-1")
        lang := none
        confidence := 0
        calls := [ICUCall.ucsdet_open, ICUCall.ucsdet_setText (text_to_cstring b),
          ICUCall.ucsdet_detect, ICUCall.ucsdet_close] } := by
  have hc : cstring_to_text (cstr "ISO-8859-1") = cstr "ISO-8859-1" := by decide
  simp [detect_ICU, h, hc]

/-- With an encoding in hand `convert_to_UTF8` completes. -/
theorem convert_to_UTF8_returns {icu : ICU} {b : text} {enc : text}
    (henc : (detect_ICU icu b).encoding = some enc) (force : Bool) :
    ∃ r, convert_to_UTF8 icu (some b) force = some r := by
  by_cases h : cbuffer_len_of b = 0
  · exact ⟨_, convert_to_UTF8_of_blank h⟩
  · rw [convert_to_UTF8_of_cbuffer_len h, henc]
    dsimp only
    split_ifs <;> exact ⟨_, rfl⟩

/-- C6: for every buffer for which the underlying detector produces no match,
`detect_ICU` returns the encoding `ISO-8859-1`, no language and confidence 0, and
`char_set_detect` returns that encoding, a null language and confidence 0. -/
theorem C6_no_match_gives_default (icu : ICU) (b : text)
    (h : (icu.ucsdet_detect (text_to_cstring b)).2 = none) :
    (detect_ICU icu b).encoding = some (cstr "ISO-8859-1") ∧
    (detect_ICU icu b).lang = none ∧
    (detect_ICU icu b).confidence = 0 ∧
    char_set_detect icu b =
      { encoding := some (cstr "ISO-8859-1"), language := none, confidence := some 0 } := by
  have hd := detect_ICU_of_no_match h
  refine ⟨by rw [hd], by rw [hd], by rw [hd], ?_⟩
  unfold char_set_detect
  rw [hd]
  rfl

/-- C6 at the bytes `63 E9`, once with a clean detector status and once with a
failure status. -/
theorem C6_no_match_gives_default_witness :
    ((detect_ICU noMatchICU [99, 233]).encoding = some (cstr "ISO-8859-1") ∧
      (detect_ICU noMatchICU [99, 233]).lang = none ∧
      (detect_ICU noMatchICU [99, 233]).confidence = 0 ∧
      char_set_detect noMatchICU [99, 233] =
        { encoding := some (cstr "ISO-8859-1"), language := none, confidence := some 0 }) ∧
    ((detect_ICU detectorErrorICU [99, 233]).encoding = some (cstr "ISO-8859-1") ∧
      (detect_ICU detectorErrorICU [99, 233]).lang = none ∧
      (detect_ICU detectorErrorICU [99, 233]).confidence = 0 ∧
      char_set_detect detectorErrorICU [99, 233] =
        { encoding := some (cstr "ISO-8859-1"), language := none, confidence := some 0 }) :=
  ⟨C6_no_match_gives_default noMatchICU [99, 233] (by decide),
   C6_no_match_gives_default detectorErrorICU [99, 233] (by decide)⟩

/-- Without `force`, `convert_to_unicode` leaves `*dropped_bytes` false when it
succeeds, and untouched when it fails. -/
theorem convert_to_unicode_strict_dropped (icu : ICU) (b enc : text) (out : UnicodeOut) :
    (convert_to_unicode icu b enc false out).out.dropped_bytes =
      (if U_SUCCESS (convert_to_unicode icu b enc false out).status then false
       else out.dropped_bytes) := by
  unfold convert_to_unicode
  dsimp only
  cases h1 : U_FAILURE (icu.ucnv_open (text_to_cstring enc))
  · cases h4 : icu.palloc0 (uBufSize_of icu b enc * 2)
    · have h7 : U_SUCCESS U_MEMORY_ALLOCATION_ERROR = false := by decide
      simp [h7]
    · cases h5 : U_SUCCESS (icu.ucnv_toUChars (text_to_cstring enc) false
          (toInt32 (uBufSize_of icu b enc)) (text_to_cstring b)).status <;> simp [h5]
  · simp [U_SUCCESS_false_of_FAILURE h1]

/-- Without `force`, `convert_to_utf8` leaves `*dropped_bytes` false when it
succeeds, and untouched when it fails. -/
theorem convert_to_utf8_strict_dropped (icu : ICU) (u : List Nat) (n : Int) (out : Utf8Out) :
    (convert_to_utf8 icu u n false out).out.dropped_bytes =
      (if U_SUCCESS (convert_to_utf8 icu u n false out).status then false
       else out.dropped_bytes) := by
  unfold convert_to_utf8
  dsimp only
  cases h1 : U_FAILURE (icu.ucnv_open (cstr "utf-8"))
  · cases h5 : U_SUCCESS (icu.ucnv_fromUChars false out.converted_buf_len (c_str u)).status <;>
      simp [h5]
  · simp [U_SUCCESS_false_of_FAILURE h1]

theorem decode_step_strict_dropped (icu : ICU) (b enc : text) (st : UErrorCode) :
    (decode_step icu b enc false st).out.dropped_bytes = false := by
  unfold decode_step
  split_ifs
  · rw [convert_to_unicode_strict_dropped]
    split_ifs <;> rfl
  · rfl

theorem encode_step_strict_dropped (icu : ICU) (u : UnicodeOut) (n : Int) (st : UErrorCode) :
    (encode_step icu u n false st).out.dropped_bytes = false := by
  unfold encode_step
  split_ifs
  · rw [convert_to_utf8_strict_dropped]
    split_ifs <;> rfl
  · rfl

/-- Every completed run of `convert_to_UTF8` with `force = false` reports
`dropped_bytes = false`. -/
theorem convert_to_UTF8_strict_dropped {icu : ICU} {b : text} {r : ConversionRun}
    (hrun : convert_to_UTF8 icu (some b) false = some r) : r.result.dropped_bytes = false := by
  by_cases hlen : cbuffer_len_of b = 0
  · rw [convert_to_UTF8_of_blank hlen] at hrun
    rw [← Option.some.inj hrun]
    rfl
  · cases henc : (detect_ICU icu b).encoding with
    | none =>
      rw [convert_to_UTF8_of_cbuffer_len hlen, henc] at hrun
      simp at hrun
    | some enc =>
      cases hname : is_utf8_name (text_to_cstring enc) with
      | true =>
        rw [convert_to_UTF8_of_cbuffer_len hlen, henc] at hrun
        simp only [hname, if_true] at hrun
        rw [← Option.some.inj hrun]
        rfl
      | false =>
        rw [convert_to_UTF8_of_other_name hlen henc hname] at hrun
        split_ifs at hrun
        · rw [← Option.some.inj hrun]
          simp [form_conversion_tuple, decode_step_strict_dropped, encode_step_strict_dropped]
        · rw [← Option.some.inj hrun]
          rfl

/-- C9: under `force = false` nothing is reported as dropped. Whenever
`convert_to_unicode(b, E, false)` succeeds it reports `dropped = false` (whatever
the flag held before); whenever `convert_to_utf8(u, false)` succeeds it reports
`dropped = false`; every result of `convert_to_UTF8(b, false)` has
`dropped_bytes = false`, and there is such a result as soon as detection returned
an encoding. -/
theorem C9_strict_policy_never_drops (icu : ICU) (b enc : text) (out : UnicodeOut)
    (u : List Nat) (n : Int) (out2 : Utf8Out) :
    (U_SUCCESS (convert_to_unicode icu b enc false out).status = true →
      (convert_to_unicode icu b enc false out).out.dropped_bytes = false) ∧
    (U_SUCCESS (convert_to_utf8 icu u n false out2).status = true →
      (convert_to_utf8 icu u n false out2).out.dropped_bytes = false) ∧
    (∀ r, convert_to_UTF8 icu (some b) false = some r → r.result.dropped_bytes = false) ∧
    ((detect_ICU icu b).encoding ≠ none →
      ∃ r, convert_to_UTF8 icu (some b) false = some r ∧ r.result.dropped_bytes = false) := by
  refine ⟨?_, ?_, ?_, ?_⟩
  · intro h
    rw [convert_to_unicode_strict_dropped, h]
    rfl
  · intro h
    rw [convert_to_utf8_strict_dropped, h]
    rfl
  · intro r hrun
    exact convert_to_UTF8_strict_dropped hrun
  · intro hne
    cases henc : (detect_ICU icu b).encoding with
    | none => exact absurd henc hne
    | some e =>
      obtain ⟨r, hr⟩ := convert_to_UTF8_returns henc false
      exact ⟨r, hr, convert_to_UTF8_strict_dropped hr⟩

/-- C9 at the bytes `63 61 66 E9`: both stages succeed, starting from flags that
were set, and the run reports `dropped_bytes = false`. -/
theorem C9_strict_policy_never_drops_witness :
    (convert_to_unicode cafeICU [99, 97, 102, 233] (cstr "ISO-8859-1") false
      { uBuf := none, uBuf_len := 0, dropped_bytes := true }).out.dropped_bytes = false ∧
    (convert_to_utf8 cafeICU [99, 97, 102, 233] 5 false
      { converted_buf := [], converted_buf_len := 24, dropped_bytes := true }).out.dropped_bytes
        = false ∧
    (∃ r, convert_to_UTF8 cafeICU (some [99, 97, 102, 233]) false = some r ∧
      r.result.dropped_bytes = false) :=
  ⟨(C9_strict_policy_never_drops cafeICU [99, 97, 102, 233] (cstr "ISO-8859-1")
      { uBuf := none, uBuf_len := 0, dropped_bytes := true } [99, 97, 102, 233] 5
      { converted_buf := [], converted_buf_len := 24, dropped_bytes := true }).1 (by decide),
   (C9_strict_policy_never_drops cafeICU [99, 97, 102, 233] (cstr "ISO-8859-1")
      { uBuf := none, uBuf_len := 0, dropped_bytes := true } [99, 97, 102, 233] 5
      { converted_buf := [], converted_buf_len := 24, dropped_bytes := true }).2.1 (by decide),
   (C9_strict_policy_never_drops cafeICU [99, 97, 102, 233] (cstr "ISO-8859-1")
      { uBuf := none, uBuf_len := 0, dropped_bytes := true } [99, 97, 102, 233] 5
      { converted_buf := [], converted_buf_len := 24, dropped_bytes := true }).2.2.2 (by decide)⟩

/-! ## C10: the confidence -/

theorem text_column_ne_nil {p : Option text} {t : text} (h : text_column p = some t) :
    t ≠ [] := by
  cases p with
  | none => simp [text_column] at h
  | some q =>
    unfold text_column at h
    dsimp only at h
    split_ifs at h with hq
    have ht : q = t := Option.some.inj h
    subst ht
    intro hnil
    apply hq
    rw [hnil]
    rfl

theorem form_conversion_tuple_text (p : Option text) (c d : Bool) (cs : List ICUCall) :
    (form_conversion_tuple p c d cs).result.text_out = text_column p :=
  rfl

/-- The text column of every completed run comes out of `text_column`. -/
theorem convert_to_UTF8_text_is_column {icu : ICU} {ob : Option text} {force : Bool}
    {r : ConversionRun} (hrun : convert_to_UTF8 icu ob force = some r) :
    ∃ p, r.result.text_out = text_column p := by
  cases ob with
  | none =>
    have hr : form_conversion_tuple none true false [] = r := Option.some.inj hrun
    exact ⟨none, by rw [← hr]; rfl⟩
  | some b =>
    by_cases hlen : cbuffer_len_of b = 0
    · rw [convert_to_UTF8_of_blank hlen] at hrun
      exact ⟨some b, by rw [← Option.some.inj hrun]; rfl⟩
    · rw [convert_to_UTF8_of_cbuffer_len hlen] at hrun
      cases henc : (detect_ICU icu b).encoding with
      | none =>
        rw [henc] at hrun
        simp at hrun
      | some enc =>
        rw [henc] at hrun
        dsimp only at hrun
        split_ifs at hrun
        · exact ⟨some b, by rw [← Option.some.inj hrun]; rfl⟩
        · exact ⟨_, by rw [← Option.some.inj hrun]; exact form_conversion_tuple_text _ _ _ _⟩
        · exact ⟨some b, by rw [← Option.some.inj hrun]; rfl⟩

/-- C11, as stated, fails: with a detector that takes every input for ISO-8859-1,
the forced transcode of `E9` is `C3 A9`, and the forced transcode of `C3 A9` is
`C3 83 C2 A9`, not `C3 A9`. -/
theorem C11_second_pass_changes_text_counterexample :
    (convert_to_UTF8 (latin1ICU alwaysLatin1) (some [233]) true).map
        (fun r => r.result.text_out) = some (some [195, 169]) ∧
    (convert_to_UTF8 (latin1ICU alwaysLatin1) (some [195, 169]) true).map
        (fun r => r.result.text_out) = some (some [195, 131, 194, 169]) := by
  decide

/-- C11, amended: when `convert_to_UTF8(b, true)` completes with text `t`, and `t`
is null, or is `b` itself, or is a text for which detection returns one of the
names `UTF-8`, `utf-8`, `UTF8`, `utf8`, then `convert_to_UTF8(t, true)` completes
with the same text `t`. -/
theorem C11_second_pass_keeps_text (icu : ICU) (b : text) (r1 : ConversionRun)
    (hrun : convert_to_UTF8 icu (some b) true = some r1)
    (hdet : ∀ t, r1.result.text_out = some t → t = b ∨
      (detect_ICU icu t).encoding = some (cstr "UTF-8") ∨
      (detect_ICU icu t).encoding = some (cstr "utf-8") ∨
      (detect_ICU icu t).encoding = some (cstr "UTF8") ∨
      (detect_ICU icu t).encoding = some (cstr "utf8")) :
    ∃ r2, convert_to_UTF8 icu r1.result.text_out true = some r2 ∧
      r2.result.text_out = r1.result.text_out := by
  cases ht : r1.result.text_out with
  | none => exact ⟨_, rfl, rfl⟩
  | some t =>
    have hne : t ≠ [] := by
      obtain ⟨p, hp⟩ := convert_to_UTF8_text_is_column hrun
      rw [ht] at hp
      exact text_column_ne_nil hp.symm
    rcases hdet t ht with h | h | h | h | h
    · subst h
      exact ⟨r1, hrun, ht⟩
    · obtain ⟨r2, h2, hres, _⟩ :=
        @convert_to_UTF8_of_utf8_name icu t true _ hne h (by decide)
      exact ⟨r2, h2, by rw [hres]⟩
    · obtain ⟨r2, h2, hres, _⟩ :=
        @convert_to_UTF8_of_utf8_name icu t true _ hne h (by decide)
      exact ⟨r2, h2, by rw [hres]⟩
    · obtain ⟨r2, h2, hres, _⟩ :=
        @convert_to_UTF8_of_utf8_name icu t true _ hne h (by decide)
      exact ⟨r2, h2, by rw [hres]⟩
    · obtain ⟨r2, h2, hres, _⟩ :=
        @convert_to_UTF8_of_utf8_name icu t true _ hne h (by decide)
      exact ⟨r2, h2, by rw [hres]⟩

/-- C11 (amended) at the byte `E9`, with a detector that recognises the lead byte
`C3`: the first pass gives `C3 A9`, the second pass returns it unchanged. -/
theorem C11_second_pass_keeps_text_witness :
    (convert_to_UTF8 (latin1ICU leadByteDetector) (some [233]) true).map
        (fun r => r.result.text_out) = some (some [195, 169]) ∧
    ∃ r2, convert_to_UTF8 (latin1ICU leadByteDetector) (some [195, 169]) true = some r2 ∧
      r2.result.text_out = some [195, 169] :=
  ⟨by decide,
   C11_second_pass_keeps_text (latin1ICU leadByteDetector) [233]
     { result := { text_out := some [195, 169], converted := true, dropped_bytes := false }
       calls := [ICUCall.palloc0 6, ICUCall.ucsdet_open, ICUCall.ucsdet_setText [233],
         ICUCall.ucsdet_detect, ICUCall.ucsdet_getName, ICUCall.ucsdet_getLanguage,
         ICUCall.ucsdet_getConfidence, ICUCall.ucsdet_close,
         ICUCall.ucnv_open (cstr "ISO-8859-1"), ICUCall.ucnv_setToUCallBack,
         ICUCall.ucnv_setToUCallBack, ICUCall.ucnv_getMinCharSize, ICUCall.palloc0 4,
         ICUCall.ucnv_toUChars 2 [233], ICUCall.ucnv_close, ICUCall.ucnv_open (cstr "utf-8"),
         ICUCall.ucnv_setFromUCallBack, ICUCall.ucnv_setFromUCallBack,
         ICUCall.ucnv_fromUChars 6 [233], ICUCall.ucnv_close] }
     (by decide)
     (fun t ht => by
       have h : t = [195, 169] := (Option.some.inj ht).symm
       subst h
       right; left
       decide)⟩

/-! ## C12: capacity of the output buffer -/

theorem toInt32_of_range {n : Int} (h0 : 0 ≤ n) (h1 : n < 2147483648) : toInt32 n = n := by
  unfold toInt32
  omega

/-- Every `ucnv_fromUChars` call of the encode stage is handed `converted_buf_len`
as the capacity of the output buffer. -/
theorem encode_call_capacity (icu : ICU) (b enc : text) (force : Bool) (cap : Int)
    (src : List Nat)
    (h : ICUCall.ucnv_fromUChars cap src ∈ (encode_call icu b enc force).calls) :
    cap = converted_buf_len_of (text_to_cstring b) := by
  unfold encode_call convert_to_utf8 at h
  dsimp only at h
  split_ifs at h <;> simp [utf8_out_init] at h <;> exact h.1

/-- While `cbuffer_len * 6` fits an `int32_t`, the capacity is six bytes per byte
of the C string, which covers four bytes for each of the at most
`strlen / minCharSize` code units decoded from it. -/
theorem output_capacity_in_range (icu : ICU) (b enc : text)
    (hfit : 6 * strlen (text_to_cstring b) < 2147483648) :
    converted_buf_len_of (text_to_cstring b) = 6 * (strlen (text_to_cstring b) : Int) ∧
    4 * ((strlen (text_to_cstring b) / icu.ucnv_getMinCharSize (text_to_cstring enc) : Nat) : Int)
      ≤ converted_buf_len_of (text_to_cstring b) := by
  have hdiv : strlen (text_to_cstring b) / icu.ucnv_getMinCharSize (text_to_cstring enc)
      ≤ strlen (text_to_cstring b) := Nat.div_le_self _ _
  have h1 : toInt32 (strlen (text_to_cstring b) : Int) = (strlen (text_to_cstring b) : Int) :=
    toInt32_of_range (by omega) (by omega)
  have h2 : converted_buf_len_of (text_to_cstring b) =
      6 * (strlen (text_to_cstring b) : Int) := by
    unfold converted_buf_len_of
    rw [h1, toInt32_of_range (by omega) (by omega)]
    omega
  refine ⟨h2, ?_⟩
  rw [h2]
  omega

theorem utf16_input_no_zero (n : Nat) : ∀ x ∈ utf16_input n, x ≠ 0 := by
  intro x hx
  unfold utf16_input at hx
  rw [List.mem_append] at hx
  rcases hx with hx | hx
  · simp at hx
    omega
  · have := List.eq_of_mem_replicate hx
    omega

theorem utf16_input_length (n : Nat) : VARSIZE_ANY_EXHDR (utf16_input n) = n + 2 := by
  unfold VARSIZE_ANY_EXHDR utf16_input
  rw [List.length_append, List.length_replicate]
  simp
  omega

theorem text_to_cstring_utf16_input (n : Nat) :
    text_to_cstring (utf16_input n) = utf16_input n :=
  c_str_of_no_zero (utf16_input_no_zero n)

theorem cbuffer_len_of_utf16_input (n : Nat) :
    cbuffer_len_of (utf16_input n) = toInt32 ((n + 2 : Nat) : Int) := by
  have hlen := utf16_input_length n
  unfold VARSIZE_ANY_EXHDR at hlen
  unfold cbuffer_len_of strlen
  rw [text_to_cstring_utf16_input, hlen]

theorem converted_buf_len_of_utf16_input (n : Nat) :
    converted_buf_len_of (text_to_cstring (utf16_input n)) =
      toInt32 (toInt32 ((n + 2 : Nat) : Int) * 6 * 1) := by
  have hlen := utf16_input_length n
  unfold VARSIZE_ANY_EXHDR at hlen
  unfold converted_buf_len_of strlen
  rw [text_to_cstring_utf16_input, hlen]

theorem utf16ICU_minCharSize :
    utf16ICU.ucnv_getMinCharSize (text_to_cstring (cstr "UTF-16BE")) = 2 :=
  rfl

theorem uBufSize_of_utf16_input (n : Nat) :
    uBufSize_of utf16ICU (utf16_input n) (cstr "UTF-16BE") = (n + 2) / 2 + 1 := by
  unfold uBufSize_of
  rw [utf16_input_length, utf16ICU_minCharSize]

/-- C12 at a failing input: for the 715827884 bytes `FE FF 41 41 ..` (no zero
byte), decoded with a minimum character size of 2, `cbuffer_len * 6` does not fit
an `int32_t`; the capacity handed to the encoder is 8 bytes, while the pivot
buffer holds up to 357913942 code units, for which the claim asks 1431655768
bytes. -/
theorem C12_capacity_wraps_at_large_input :
    VARSIZE_ANY_EXHDR (utf16_input 715827882) = 715827884 ∧
    cbuffer_len_of (utf16_input 715827882) = 715827884 ∧
    converted_buf_len_of (text_to_cstring (utf16_input 715827882)) = 8 ∧
    uBufSize_of utf16ICU (utf16_input 715827882) (cstr "UTF-16BE") = 357913943 ∧
    (∀ cap src, ICUCall.ucnv_fromUChars cap src ∈
        (encode_call utf16ICU (utf16_input 715827882) (cstr "UTF-16BE") true).calls →
      cap = 8) ∧
    ¬ (4 * ((uBufSize_of utf16ICU (utf16_input 715827882) (cstr "UTF-16BE") : Int) - 1) ≤
        converted_buf_len_of (text_to_cstring (utf16_input 715827882))) := by
  have h1 : VARSIZE_ANY_EXHDR (utf16_input 715827882) = 715827884 := by
    rw [utf16_input_length]
  have h2 : cbuffer_len_of (utf16_input 715827882) = 715827884 := by
    rw [cbuffer_len_of_utf16_input]
    norm_num [toInt32]
  have h3 : converted_buf_len_of (text_to_cstring (utf16_input 715827882)) = 8 := by
    rw [converted_buf_len_of_utf16_input]
    norm_num [toInt32]
  have h4 : uBufSize_of utf16ICU (utf16_input 715827882) (cstr "UTF-16BE") = 357913943 := by
    rw [uBufSize_of_utf16_input]
  refine ⟨h1, h2, h3, h4, ?_, ?_⟩
  · intro cap src hmem
    rw [encode_call_capacity _ _ _ _ _ _ hmem, h3]
  · rw [h3, h4]
    norm_num

end PgChardetect
